import Mathlib

/-!
Verification of the Template Composition & Configuration Resolution Engine of
`baker-cli` (`src/baker_cli/dockerfile_gen.py`), shallowly embedded in Lean 4.

Python dictionaries are modelled as association lists (`Dict α`) together with
a first-match lookup `dget`; the merge `dmerge a b` models the Python
expression `{**a, **b}` at the level of lookups (the later dictionary wins for
every key).  YAML scalars are modelled as `String`; a YAML `null` value is
modelled as `none` in `Option String` (or as `YVal.null` where nested maps are
needed).  Filesystem reads are modelled by explicit finite maps passed as
parameters.  Python strings are modelled as `List Char` where character-level
processing matters, so that every operation is structurally recursive and
kernel-reducible.  Jinja2 rendering of a selected snippet is outside the
model: functions of the registry return the *selected* template text (the
value the Python code computes before calling `tmpl.render`), which is all the
claims about selection, fallback and the RUN-prefix rule refer to.
-/

set_option autoImplicit false

namespace Baker

/-- A Python dictionary, modelled for lookup purposes as an association list. -/
abbrev Dict (α : Type) := List (String × α)

/-- First defined value of a list of optional values (used to state layered
precedence: the head is the highest-precedence layer). -/
def firstSome {α : Type} : List (Option α) → Option α
  | [] => none
  | o :: os =>
    match o with
    | some v => some v
    | none => firstSome os

/-- The proposition `P r` where `r` is the payload of `o`, or `False` when
`o` is `none` (a binder-free way to state facts about an optional result). -/
def optHolds {α : Type} (o : Option α) (P : α → Prop) : Prop :=
  match o with
  | none => False
  | some a => P a

/-- `d.get(k)` in Python (`None` for a missing key): first-match lookup. -/
def dget {α : Type} : Dict α → String → Option α
  | [], _ => none
  | (k', v) :: rest, k => if k' = k then some v else dget rest k

/-- `{**a, **b}` in Python, modelled at lookup level: entries of `b` shadow
entries of `a`. -/
def dmerge {α : Type} (a b : Dict α) : Dict α := b ++ a

/-- Removal of one key from a dictionary (models Python `dict.pop(k, ...)`
discarding the popped value). -/
def removeKey {α : Type} (d : Dict α) (k : String) : Dict α :=
  d.filter (fun p => p.1 != k)

/-!
## Source constants (`dockerfile_gen.py`, lines 57-70)
-/

/-- `GLOBAL_DEFAULTS` (lines 57-64). -/
def GLOBAL_DEFAULTS : Dict String :=
  [("python_version", "3.12"),
   ("debian_base", "bookworm"),
   ("alpine_version", "3.20"),
   ("pg_version", "16.4"),
   ("nginx_version", "1.27.4"),
   ("node_version", "20")]

/-- `DEFAULT_BASE_IMAGES` (lines 67-70). -/
def DEFAULT_BASE_IMAGES : Dict String :=
  [("debian", "python:{python_version}-slim-{debian_base}"),
   ("alpine", "python:{python_version}-alpine{alpine_version}")]

/-!
## Recipe registry (`RecipeRegistry`, lines 73-111)

A recipe table maps a recipe name to a variant table; a variant table maps a
variant name to a snippet, where the stored value `none` models a YAML `null`
entry.  `RecipeRegistry.get` models lines 88-104 up to (and excluding) the
Jinja2 rendering of the selected snippet: it returns the selected template
text itself, and `Except.error` models the raised `KeyError`.
-/

/-- A variant table of one recipe: variant name to snippet text, with `none`
modelling an explicit YAML `null` value stored under the key. -/
abbrev VariantTable := Dict (Option String)

/-- The recipe table of a registry: recipe name to variant table. -/
abbrev Registry := Dict VariantTable

/-- Python truthiness of a value that is either `None` or a string. -/
def truthy : Option String → Bool
  | none => false
  | some s => !(s == "")

/-- Python `a or b` on `None`-or-string values. -/
def pyOr (a b : Option String) : Option String :=
  if truthy a then a else b

/-- Python `d.get(k)` on a variant table: `None` both for a missing key and
for a stored `null`. -/
def VariantTable.pyGet (t : VariantTable) (k : String) : Option String :=
  match dget t k with
  | none => none
  | some v => v

/-- Python `d.get(k, dflt)` on a variant table. -/
def VariantTable.pyGetD (t : VariantTable) (k : String) (dflt : Option String) :
    Option String :=
  match dget t k with
  | none => dflt
  | some v => v

namespace RecipeRegistry

/-- `RecipeRegistry.get` (lines 88-104), up to the final rendering step: the
selection `recipe_variants.get(variant) or recipe_variants.get("_default", "")`
followed by the falsy check `if not template_str: return ""`.  An unknown
recipe name raises `KeyError` (modelled by `Except.error`). -/
def get (reg : Registry) (name variant : String) : Except String String :=
  match dget reg name with
  | none => .error ("Unknown recipe: " ++ name)
  | some recipe_variants =>
    let template_str :=
      pyOr (recipe_variants.pyGet variant) (recipe_variants.pyGetD "_default" (some ""))
    if !(truthy template_str) then .ok ""
    else .ok (template_str.getD "")

/-- `RecipeRegistry.has` (lines 106-111). -/
def has (reg : Registry) (name variant : String) : Bool :=
  match dget reg name with
  | none => false
  | some recipe_variants =>
    truthy (pyOr (recipe_variants.pyGet variant) (recipe_variants.pyGet "_default"))

end RecipeRegistry

/-!
## Python string helpers over `List Char`

Everything is structurally recursive so that concrete inputs reduce in the
kernel.  `isPyWS` covers the whitespace characters Python's `str.strip`
family removes for ASCII input.
-/

/-- Whitespace as recognised by Python's `str.strip`/`str.rstrip` (ASCII). -/
def isPyWS (c : Char) : Bool :=
  c == ' ' || c == '\t' || c == '\n' || c == '\r' || c == '\x0b' || c == '\x0c'

/-- Python `s.rstrip()`. -/
def pyRstrip (cs : List Char) : List Char :=
  (cs.reverse.dropWhile isPyWS).reverse

/-- Python `s.lstrip()`. -/
def pyLstrip (cs : List Char) : List Char :=
  cs.dropWhile isPyWS

/-- Python `s.strip()`. -/
def pyStrip (cs : List Char) : List Char :=
  pyLstrip (pyRstrip cs)

/-- Python `s.split("\n")`. -/
def splitNL : List Char → List (List Char)
  | [] => [[]]
  | c :: rest =>
    if c = '\n' then [] :: splitNL rest
    else
      match splitNL rest with
      | [] => [[c]]
      | l :: ls => (c :: l) :: ls

/-- Python `"\n".join(lines)`. -/
def joinNL : List (List Char) → List Char
  | [] => []
  | [l] => l
  | l :: ls => l ++ '\n' :: joinNL ls

/-- The test `line.strip().startswith("#")` from line 187. -/
def lineIsComment (l : List Char) : Bool :=
  match pyStrip l with
  | '#' :: _ => true
  | _ => false

/-- The `while lines and lines[0].strip().startswith("#")` loop of lines
186-189: splits off the maximal leading run of comment lines. -/
def splitLeadingComments : List (List Char) → List (List Char) × List (List Char)
  | [] => ([], [])
  | l :: rest =>
    if lineIsComment l then
      let (cs, r) := splitLeadingComments rest
      (l :: cs, r)
    else ([], l :: rest)

namespace DockerfileGenerator

/-- The RUN-prefix composition rule of `DockerfileGenerator._recipe_func`
(lines 181-197), applied to the snippet content returned by the registry:
right-trim; an empty result or one already starting with `"RUN "` or
`"COPY "` is returned as is; otherwise leading comment lines are moved in
front of a single `RUN` instruction wrapping the stripped remaining content,
and a comments-only snippet is emitted as bare comments. -/
def recipe_func_body (content : List Char) : List Char :=
  let content := pyRstrip content
  if content.isEmpty then content
  else if ("RUN ".data.isPrefixOf content) || ("COPY ".data.isPrefixOf content) then
    content
  else
    let lines := splitNL content
    let (leading_comments, rest) := splitLeadingComments lines
    let cmd_content := pyStrip (joinNL rest)
    if !cmd_content.isEmpty then
      (if !leading_comments.isEmpty then joinNL leading_comments ++ ['\n'] else [])
        ++ "RUN ".data ++ cmd_content
    else if !leading_comments.isEmpty then
      joinNL leading_comments
    else content

/-- `DockerfileGenerator._recipe_func` (lines 171-197): registry lookup for
the generator's base variant followed by the RUN-prefix rule; the Jinja2
rendering of the selected snippet with the merged parameters is outside the
model (it is the identity on snippets that use no placeholders). -/
def recipe_func (reg : Registry) (base_variant name : String) :
    Except String (List Char) :=
  (RecipeRegistry.get reg name base_variant).map (fun s => recipe_func_body s.data)

end DockerfileGenerator

/-!
## Variant parsing and the variant resolver (`load_variant_config`, lines 339-384)
-/

/-- Split a character string at the first `'-'`: models
`variant.split("-", 1)`. -/
def splitDashAux : List Char → List Char × Option (List Char)
  | [] => ([], none)
  | c :: rest =>
    if c = '-' then ([], some rest)
    else
      let (b, s) := splitDashAux rest
      (c :: b, s)

/-- `variant.split("-", 1)` as (base, optional sub) (lines 358-360). -/
def splitVariant (v : String) : String × Option String :=
  let p := splitDashAux v.data
  (String.mk p.1, p.2.map String.mk)

/-- `variant.split("-")[0] if "-" in variant else variant`
(lines 127 and 459): the part of the variant before the first dash. -/
def baseVariantOf (v : String) : String := (splitVariant v).1

/-- A YAML value as far as the variant resolver needs it: a scalar, `null`,
or a nested mapping. -/
inductive YVal where
  | str (s : String)
  | null
  | map (m : List (String × YVal))

/-- A parsed variant configuration file: a YAML mapping. -/
abbrev YConfig := List (String × YVal)

/-- `load_variant_config` (lines 339-384).  `fs` models the
`template_dir/variants/` directory: it maps a file stem (`"debian"`,
`"debian-trixie"`, ...) to the parsed content of `<stem>.yml` when that file
exists.  The guard `if subvariant and subvariant in subvariants` (line 373)
short-circuits on a falsy sub-variant name, so an empty sub name (variant
ending in `-`) applies no override.  The returned `none` models a raised
`TypeError` when, with a truthy sub name, the `subvariants` entry or the
selected sub-variant override is not a mapping (the Python corner where
`subvariants` is a string whose substring test fails is also mapped to
`none`; no claim depends on malformed files). -/
def load_variant_config (fs : String → Option YConfig) (variant : String) :
    Option YConfig :=
  let parts := splitVariant variant
  let base_variant := parts.1
  let subvariant := parts.2
  let step1 : Option YConfig :=
    match fs base_variant with
    | none => some []
    | some base_config =>
      let subvariants := dget base_config "subvariants"
      let result := removeKey base_config "subvariants"
      match subvariant with
      | none => some result
      | some sub =>
        if sub = "" then some result
        else
          match subvariants with
          | none => some result
          | some (.map m) =>
            match dget m sub with
            | none => some result
            | some (.map o) => some (dmerge result o)
            | some _ => none
          | some _ => none
  match step1 with
  | none => none
  | some result =>
    if variant = base_variant then some result
    else
      match fs variant with
      | none => some result
      | some exact_config => some (dmerge result (removeKey exact_config "subvariants"))

/-!
## Required-defaults validator (lines 457-480)
-/

/-- `get_required_defaults_for_variant` (lines 457-468). -/
def get_required_defaults_for_variant (variant : String) : List String :=
  let base_variant := baseVariantOf variant
  let common := ["python_version", "node_version"]
  if base_variant = "debian" then common ++ ["debian_base"]
  else if base_variant = "alpine" then common ++ ["alpine_version"]
  else common

/-- `check_variant_defaults` (lines 471-480): the merged defaults map keys to
`Option String` values where the stored `none` models an explicit `null`. -/
def check_variant_defaults (defaults : Dict (Option String)) (variant : String) :
    Bool × List String :=
  let required := get_required_defaults_for_variant variant
  let missing := required.filter (fun k =>
    match dget defaults k with
    | none => true
    | some none => true
    | some (some _) => false)
  (missing.isEmpty, missing)

/-!
## Base-image computation (lines 148-150)
-/

/-- One pass of Python `str.format` restricted to plain `{key}` placeholders
(the only form the base-image patterns use): the first argument accumulates
the characters of a placeholder key (in reverse) while inside braces.
A missing key or an unclosed brace yields `none`, modelling the raised
`KeyError`/`ValueError`. -/
def formatGo (d : Dict String) : Option (List Char) → List Char → Option (List Char)
  | none, [] => some []
  | some _, [] => none
  | none, c :: rest =>
    if c = '{' then formatGo d (some []) rest
    else (formatGo d none rest).map (fun t => c :: t)
  | some acc, c :: rest =>
    if c = '}' then
      match dget d (String.mk acc.reverse) with
      | none => none
      | some v => (formatGo d none rest).map (fun t => v.data ++ t)
    else formatGo d (some (c :: acc)) rest

/-- Python `pattern.format(**d)` for plain `{key}` placeholders. -/
def pyFormat (pattern : String) (d : Dict String) : Option String :=
  (formatGo d none pattern.data).map String.mk

/-- The base-image computation of `DockerfileGenerator.__init__`
(lines 148-150): `DEFAULT_BASE_IMAGES.get(base_variant,
DEFAULT_BASE_IMAGES["debian"])` substituted with the merged defaults. -/
def compute_base_image (base_variant : String) (defaults : Dict String) :
    Option String :=
  let base_image_template :=
    match dget DEFAULT_BASE_IMAGES base_variant with
    | some t => t
    | none => (dget DEFAULT_BASE_IMAGES "debian").getD ""
  pyFormat base_image_template defaults

/-!
## The defaults-merging pipeline (lines 130-133, 517, 570, 604)

Each function mirrors one merge site of the source; `rendererDefaults`
composes them exactly as the call chain
`generate_all_dockerfiles → generate_dockerfile → DockerfileGenerator.__init__`
does, so `dget (rendererDefaults ...) k` is the value the renderer sees for
the defaults key `k`.
-/

/-- `self.defaults = dict(GLOBAL_DEFAULTS); self.defaults.update(defaults)`
(lines 131-133). -/
def DockerfileGenerator.mergedDefaults (defaults : Dict String) : Dict String :=
  dmerge GLOBAL_DEFAULTS defaults

/-- `merged_defaults = {**file_defaults, **variant_config, **(defaults or {})}`
(line 517). -/
def generate_dockerfile_defaults (file_defaults variant_config defaults : Dict String) :
    Dict String :=
  dmerge (dmerge file_defaults variant_config) defaults

/-- `merged_defaults = {**copier_defaults, **project_defaults, **(defaults or {})}`
(line 570). -/
def generate_all_merged_defaults (copier_defaults project_defaults explicit_defaults : Dict String) :
    Dict String :=
  dmerge (dmerge copier_defaults project_defaults) explicit_defaults

/-- `target_defaults = {**merged_defaults, **tconfig.get("dockerfile_defaults", {})}`
(line 604). -/
def generate_all_target_defaults
    (copier_defaults project_defaults explicit_defaults target_overrides : Dict String) :
    Dict String :=
  dmerge (generate_all_merged_defaults copier_defaults project_defaults explicit_defaults)
    target_overrides

/-- The defaults mapping the renderer of one target ultimately sees, as
composed by the source call chain. -/
def rendererDefaults
    (file_defaults variant_config copier_defaults project_defaults
     explicit_defaults target_overrides : Dict String) : Dict String :=
  DockerfileGenerator.mergedDefaults
    (generate_dockerfile_defaults file_defaults variant_config
      (generate_all_target_defaults copier_defaults project_defaults
        explicit_defaults target_overrides))

/-!
## Generation pipeline skeleton (`generate_all_dockerfiles`, lines 533-617)

The per-target control flow is modelled exactly; the content produced for a
target that does render is abstracted by an oracle `render` (the claims this
model settles are about which targets appear in the batch result and when the
missing-template failure is raised, not about the rendered text).  `fs p`
models `Path(p).exists()`.
-/

/-- One target's configuration as read by lines 576-604. -/
structure TargetConfig where
  dockerfile_template : Option String := none
  dockerfile : Option String := none
  dockerfile_defaults : Dict String := []
  build_args : Dict String := []
  template_context : Dict String := []

/-- The settings mapping as read by `generate_all_dockerfiles`. -/
structure Settings where
  targets : Dict TargetConfig := []
  dockerfile_defaults : Dict String := []

/-- `Path("ops/build/docker-templates") / tname / "Dockerfile.j2"` (line 581). -/
def conventionTemplatePath (tname : String) : String :=
  "ops/build/docker-templates/" ++ tname ++ "/Dockerfile.j2"

/-- Template resolution for one target (lines 577-583): the configured
`dockerfile_template` when truthy, else the conventional path when that file
exists, else the (falsy) configured value. -/
def resolveTemplatePath (fs : String → Bool) (tconfig : TargetConfig) (tname : String) :
    Option String :=
  if truthy tconfig.dockerfile_template then tconfig.dockerfile_template
  else if fs (conventionTemplatePath tname) then some (conventionTemplatePath tname)
  else tconfig.dockerfile_template

/-- The per-target loop of `generate_all_dockerfiles` (lines 572-616):
unknown selected names are skipped; a target with no truthy template path and
no conventional template file is skipped; a resolved template path that does
not exist raises `FileNotFoundError` (modelled by `Except.error`); otherwise
the rendered content is recorded under the target name. -/
def genLoop (fs : String → Bool) (render : String → String → String)
    (all_targets : Dict TargetConfig) : List String → Except String (Dict String)
  | [] => .ok []
  | tname :: rest =>
    match dget all_targets tname with
    | none => genLoop fs render all_targets rest
    | some tconfig =>
      let template_path := resolveTemplatePath fs tconfig tname
      if !(truthy template_path) then genLoop fs render all_targets rest
      else if !(fs (template_path.getD "")) then
        .error ("Template not found: " ++ template_path.getD "" ++ " (target: " ++ tname ++ ")")
      else
        match genLoop fs render all_targets rest with
        | .error e => .error e
        | .ok results => .ok ((tname, render tname (template_path.getD "")) :: results)

/-- `generate_all_dockerfiles` (lines 533-617) restricted to target selection,
template resolution and the result mapping.  `targets = none` models the
Python default `targets=None`; a passed empty list also falls back to all
targets (`targets or list(all_targets.keys())`). -/
def generate_all_dockerfiles (fs : String → Bool) (render : String → String → String)
    (settings : Settings) (targets : Option (List String)) :
    Except String (Dict String) :=
  let all_targets := settings.targets
  let selected :=
    match targets with
    | none => all_targets.map (fun p => p.1)
    | some ts => if ts.isEmpty then all_targets.map (fun p => p.1) else ts
  genLoop fs render all_targets selected

/-!
# Theorems
-/

@[simp] theorem dget_nil {α : Type} (k : String) : dget ([] : Dict α) k = none := rfl

@[simp] theorem dget_cons {α : Type} (k' k : String) (v : α) (rest : Dict α) :
    dget ((k', v) :: rest) k = if k' = k then some v else dget rest k := rfl

/-- Lookup in an appended association list prefers the left part. -/
theorem dget_append {α : Type} (a b : Dict α) (k : String) :
    dget (a ++ b) k = (dget a k).orElse (fun _ => dget b k) := by
  induction a with
  | nil => simp [Option.orElse]
  | cons p rest ih =>
    obtain ⟨k', v⟩ := p
    by_cases h : k' = k <;> simp [dget, h, ih, Option.orElse]

/-- The merged dictionary looks up in `b` first, falling back to `a`:
the later layer always wins. -/
theorem dget_dmerge {α : Type} (a b : Dict α) (k : String) :
    dget (dmerge a b) k = (dget b k).orElse (fun _ => dget a k) :=
  dget_append b a k

@[simp] theorem dget_removeKey_self {α : Type} (d : Dict α) (k : String) :
    dget (removeKey d k) k = none := by
  induction d with
  | nil => rfl
  | cons p rest ih =>
    obtain ⟨k', v⟩ := p
    by_cases h : k' = k
    · subst h
      simpa [removeKey, List.filter_cons] using ih
    · simpa [removeKey, List.filter_cons, h, dget] using ih

theorem dget_removeKey_ne {α : Type} (d : Dict α) (k k' : String) (h : k' ≠ k) :
    dget (removeKey d k) k' = dget d k' := by
  induction d with
  | nil => rfl
  | cons p rest ih =>
    obtain ⟨k'', v⟩ := p
    by_cases hk : k'' = k
    · subst hk
      simp [removeKey, List.filter_cons, dget, Ne.symm h] at ih ⊢
      exact ih
    · simp [removeKey, List.filter_cons, hk, dget] at ih ⊢
      by_cases hk' : k'' = k' <;> simp [hk', ih]

/-- C6: for every registered recipe name, variant `V` and parameter mapping,
if the recipe's variant table has no entry for `V` but has a `_default`
entry, then `get(name, V, params)` selects the same snippet text as
`get(name, "_default", params)`: the snippet chosen before parameter
substitution is the `_default` entry verbatim (so the rendered results with
equal parameters coincide as well). -/
theorem C6_absent_variant_falls_back_to_default
    (reg : Registry) (name variant : String) (recipe_variants : VariantTable)
    (d : Option String)
    (hname : dget reg name = some recipe_variants)
    (hvar : dget recipe_variants variant = none)
    (hdef : dget recipe_variants "_default" = some d) :
    RecipeRegistry.get reg name variant = RecipeRegistry.get reg name "_default" := by
  simp only [RecipeRegistry.get, hname, VariantTable.pyGet, VariantTable.pyGetD,
    hvar, hdef, pyOr]
  cases d with
  | none => simp [truthy]
  | some s => by_cases h : s = "" <;> simp [truthy, h]

/-- Witness for C6 at a concrete registry: a recipe with only a `_default`
entry selects that entry for the unlisted variant `alpine`. -/
theorem C6_witness :
    RecipeRegistry.get [("pip_install", [("_default", some "pip install -r req.txt")])]
        "pip_install" "alpine"
      = RecipeRegistry.get [("pip_install", [("_default", some "pip install -r req.txt")])]
        "pip_install" "_default" :=
  C6_absent_variant_falls_back_to_default
    [("pip_install", [("_default", some "pip install -r req.txt")])]
    "pip_install" "alpine" [("_default", some "pip install -r req.txt")]
    (some "pip install -r req.txt") (by decide) (by decide) (by decide)

/-- C7: for every recipe name not present in the registry, `get` raises the
lookup error (it never returns text) while `has` returns `false` without
raising; and for a known name where neither the variant entry nor `_default`
exists, `get` returns empty text and does not raise. -/
theorem C7_unknown_name_and_missing_entries (reg : Registry) (name variant : String) :
    (dget reg name = none →
      RecipeRegistry.get reg name variant = .error ("Unknown recipe: " ++ name)
        ∧ RecipeRegistry.has reg name variant = false)
    ∧ (∀ recipe_variants : VariantTable,
        dget reg name = some recipe_variants →
        dget recipe_variants variant = none →
        dget recipe_variants "_default" = none →
        RecipeRegistry.get reg name variant = .ok "") := by
  constructor
  · intro h
    simp [RecipeRegistry.get, RecipeRegistry.has, h]
  · intro recipe_variants hn hv hd
    simp [RecipeRegistry.get, hn, VariantTable.pyGet, VariantTable.pyGetD,
      hv, hd, pyOr, truthy]

/-- Witness for C7: the unknown name `nope` errors in `get` and is `false`
in `has`; a known name with neither the variant nor a `_default` entry
yields empty text. -/
theorem C7_witness :
    RecipeRegistry.get [] "nope" "debian" = .error ("Unknown recipe: " ++ "nope")
      ∧ RecipeRegistry.has [] "nope" "debian" = false
      ∧ RecipeRegistry.get [("r", [("alpine", some "apk add curl")])] "r" "debian" = .ok "" :=
  ⟨((C7_unknown_name_and_missing_entries [] "nope" "debian").1 (by decide)).1,
   ((C7_unknown_name_and_missing_entries [] "nope" "debian").1 (by decide)).2,
   (C7_unknown_name_and_missing_entries [("r", [("alpine", some "apk add curl")])]
      "r" "debian").2 [("alpine", some "apk add curl")] (by decide) (by decide) (by decide)⟩

/-- C9: a variant entry that is present but empty (empty string or `null`)
is treated exactly as if it were absent: `get` behaves as on a registry
whose variant table has the entry removed (fallback is decided by
truthiness, not key presence); and `has` returns `false` when both the
variant entry and the `_default` entry are empty even though entries for
the name exist. -/
theorem C9_falsy_entry_falls_back
    (reg : Registry) (name variant : String) (recipe_variants : VariantTable)
    (e : Option String)
    (hname : dget reg name = some recipe_variants)
    (hvar : dget recipe_variants variant = some e)
    (hfalsy : truthy e = false) :
    RecipeRegistry.get reg name variant
        = RecipeRegistry.get [(name, removeKey recipe_variants variant)] name variant
      ∧ (truthy (recipe_variants.pyGet "_default") = false →
          RecipeRegistry.has reg name variant = false) := by
  constructor
  · by_cases hv : variant = "_default"
    · subst hv
      cases e with
      | none =>
        simp [RecipeRegistry.get, hname, VariantTable.pyGet, VariantTable.pyGetD,
          hvar, pyOr, dget_removeKey_self, truthy]
      | some s =>
        have hs : s = "" := by simpa [truthy] using hfalsy
        subst hs
        simp [RecipeRegistry.get, hname, VariantTable.pyGet, VariantTable.pyGetD,
          hvar, pyOr, dget_removeKey_self, truthy]
    · have hd : dget (removeKey recipe_variants variant) "_default"
          = dget recipe_variants "_default" :=
        dget_removeKey_ne recipe_variants variant "_default" (fun h => hv h.symm)
      simp only [truthy] at hfalsy
      simp [RecipeRegistry.get, hname, VariantTable.pyGet, VariantTable.pyGetD,
        hvar, pyOr, hfalsy, dget_removeKey_self, hd, truthy]
  · intro hdef
    simp only [VariantTable.pyGet] at hdef
    simp [RecipeRegistry.has, hname, VariantTable.pyGet, hvar, pyOr, hfalsy, hdef]

/-- Witness for C9: an empty-string entry for `alpine` falls back exactly as
if the `alpine` entry were absent, and `has` is `false` when the `alpine`
entry is empty and `_default` is `null`. -/
theorem C9_witness :
    RecipeRegistry.get [("r", [("alpine", some ""), ("_default", none)])] "r" "alpine"
        = RecipeRegistry.get
            [("r", removeKey [("alpine", some ""), ("_default", none)] "alpine")]
            "r" "alpine"
      ∧ RecipeRegistry.has [("r", [("alpine", some ""), ("_default", none)])] "r" "alpine"
        = false := by
  have h := C9_falsy_entry_falls_back
    [("r", [("alpine", some ""), ("_default", none)])] "r" "alpine"
    [("alpine", some ""), ("_default", none)] (some "")
    (by decide) (by decide) (by decide)
  exact ⟨h.1, h.2 (by decide)⟩

/-- C1 counterexample: the claimed precedence order fails on the code.  With
an explicit caller-supplied value and a per-target override for the same key
`k1`, the renderer sees the per-target value, not the explicit one (the code
merges `tconfig["dockerfile_defaults"]` after the explicit defaults at line
604); and with a variant-configuration value and a copier-answers value for
the same key `k2`, the renderer sees the copier value, not the variant one
(the defaults passed down at line 570 are merged after the variant
configuration at line 517). -/
theorem C1_counterexample :
    dget (rendererDefaults [] [("k2", "variant")] [("k2", "copier")] []
        [("k1", "explicit")] [("k1", "target")]) "k1" = some "target"
      ∧ dget (rendererDefaults [] [("k2", "variant")] [("k2", "copier")] []
        [("k1", "explicit")] [("k1", "target")]) "k2" = some "copier"
      ∧ ("target" : String) ≠ "explicit"
      ∧ ("copier" : String) ≠ "variant" := by
  refine ⟨rfl, rfl, by decide, by decide⟩

/-- C1 amended: for every key, the merged value the renderer sees follows the
fixed precedence order realised by the code, from highest to lowest:
per-target setting overrides, explicit caller-supplied overrides,
project-level settings defaults (`dockerfile_defaults`), externally supplied
project metadata (copier answers), variant configuration, the optional
project defaults file (`defaults.yml`), and the built-in global baseline. -/
theorem C1_amended_precedence
    (file_defaults variant_config copier_defaults project_defaults
     explicit_defaults target_overrides : Dict String) (k : String) :
    dget (rendererDefaults file_defaults variant_config copier_defaults
        project_defaults explicit_defaults target_overrides) k
      = firstSome [dget target_overrides k, dget explicit_defaults k,
          dget project_defaults k, dget copier_defaults k, dget variant_config k,
          dget file_defaults k, dget GLOBAL_DEFAULTS k] := by
  simp only [rendererDefaults, DockerfileGenerator.mergedDefaults,
    generate_dockerfile_defaults, generate_all_target_defaults,
    generate_all_merged_defaults, dget_dmerge]
  cases dget target_overrides k <;> cases dget explicit_defaults k <;>
    cases dget project_defaults k <;> cases dget copier_defaults k <;>
    cases dget variant_config k <;> cases dget file_defaults k <;>
    cases dget GLOBAL_DEFAULTS k <;>
    simp [Option.orElse, firstSome]

/-- C8: the validator reports exactly the required keys that are absent from
the merged defaults or mapped to null; the required set is the common pair
(`python_version`, `node_version`) plus `debian_base` for the Debian family
and `alpine_version` for the Alpine family; and the boolean completeness
result is true iff the reported missing list is empty. -/
theorem C8_validator_reports_missing (defaults : Dict (Option String)) (variant : String) :
    (∀ k, k ∈ (check_variant_defaults defaults variant).2 ↔
        (k ∈ get_required_defaults_for_variant variant
          ∧ (dget defaults k = none ∨ dget defaults k = some none)))
      ∧ ((check_variant_defaults defaults variant).1 = true ↔
          (check_variant_defaults defaults variant).2 = [])
      ∧ (baseVariantOf variant = "debian" →
          get_required_defaults_for_variant variant
            = ["python_version", "node_version", "debian_base"])
      ∧ (baseVariantOf variant = "alpine" →
          get_required_defaults_for_variant variant
            = ["python_version", "node_version", "alpine_version"])
      ∧ (baseVariantOf variant ≠ "debian" → baseVariantOf variant ≠ "alpine" →
          get_required_defaults_for_variant variant
            = ["python_version", "node_version"]) := by
  refine ⟨?_, ?_, ?_, ?_, ?_⟩
  · intro k
    simp only [check_variant_defaults, List.mem_filter]
    constructor
    · rintro ⟨hmem, hpred⟩
      refine ⟨hmem, ?_⟩
      cases hd : dget defaults k with
      | none => exact Or.inl rfl
      | some v =>
        cases v with
        | none => exact Or.inr rfl
        | some s => rw [hd] at hpred; simp at hpred
    · rintro ⟨hmem, hval⟩
      refine ⟨hmem, ?_⟩
      rcases hval with h | h <;> rw [h]
  · simp [check_variant_defaults, List.isEmpty_iff]
  · intro h
    simp [get_required_defaults_for_variant, h]
  · intro h
    simp [get_required_defaults_for_variant, h]
  · intro h1 h2
    simp [get_required_defaults_for_variant, h1, h2]

/-- Witness for C8 at a merged defaults map lacking `debian_base` and holding
a null `node_version`, checked for the Debian-family variant
`debian-trixie`. -/
theorem C8_witness :
    ("debian_base" ∈ (check_variant_defaults
        [("python_version", some "3.12"), ("node_version", none)] "debian-trixie").2)
      ∧ ("node_version" ∈ (check_variant_defaults
        [("python_version", some "3.12"), ("node_version", none)] "debian-trixie").2)
      ∧ (get_required_defaults_for_variant "debian-trixie"
          = ["python_version", "node_version", "debian_base"])
      ∧ ((check_variant_defaults
          [("python_version", some "3.12"), ("node_version", none)] "debian-trixie").1 = true
        ↔ (check_variant_defaults
          [("python_version", some "3.12"), ("node_version", none)] "debian-trixie").2 = []) := by
  have h := C8_validator_reports_missing
    [("python_version", some "3.12"), ("node_version", none)] "debian-trixie"
  exact ⟨(h.1 "debian_base").mpr ⟨by decide, Or.inl (by decide)⟩,
         (h.1 "node_version").mpr ⟨by decide, Or.inr (by decide)⟩,
         h.2.2.1 (by decide),
         h.2.1⟩

/-- Substitution success is monotone in the dictionary: enlarging the set of
defined keys cannot turn a successful `str.format` into a failure. -/
theorem formatGo_isSome_mono (d d' : Dict String)
    (h : ∀ k, (dget d k).isSome = true → (dget d' k).isSome = true) :
    ∀ (p : List Char) (mode : Option (List Char)),
      (formatGo d mode p).isSome = true → (formatGo d' mode p).isSome = true := by
  intro p
  induction p with
  | nil =>
    intro mode
    cases mode <;> simp [formatGo]
  | cons c rest ih =>
    intro mode
    cases mode with
    | none =>
      by_cases hc : c = '{'
      · subst hc
        simpa [formatGo] using ih (some [])
      · simpa [formatGo, hc] using ih none
    | some acc =>
      by_cases hc : c = '}'
      · subst hc
        cases hd : dget d (String.mk acc.reverse) with
        | none => simp [formatGo, hd]
        | some v =>
          have hsome := h (String.mk acc.reverse) (by simp [hd])
          cases hd' : dget d' (String.mk acc.reverse) with
          | none => simp [hd'] at hsome
          | some v' => simpa [formatGo, hd, hd'] using ih none
      · simpa [formatGo, hc] using ih (some (c :: acc))

/-- C10: for every variant whose base part is neither `debian` nor `alpine`,
the base-image reference exposed to templates is computed by substituting the
merged defaults into the Debian image-name pattern (the Debian pattern is the
silent fallback), and no error is raised: on the generator's defaults (the
global baseline merged with any caller defaults) the substitution always
succeeds. -/
theorem C10_unknown_base_falls_back_to_debian
    (base_variant : String) (defaults user : Dict String)
    (h1 : base_variant ≠ "debian") (h2 : base_variant ≠ "alpine") :
    compute_base_image base_variant defaults
        = pyFormat "python:{python_version}-slim-{debian_base}" defaults
      ∧ (compute_base_image base_variant
          (DockerfileGenerator.mergedDefaults user)).isSome = true := by
  have hsel : dget DEFAULT_BASE_IMAGES base_variant = none := by
    simp [DEFAULT_BASE_IMAGES, dget, Ne.symm h1, Ne.symm h2]
  constructor
  · simp [compute_base_image, DEFAULT_BASE_IMAGES, dget, Ne.symm h1, Ne.symm h2]
  · have hmono : ∀ k, (dget GLOBAL_DEFAULTS k).isSome = true →
        (dget (DockerfileGenerator.mergedDefaults user) k).isSome = true := by
      intro k hk
      rw [DockerfileGenerator.mergedDefaults, dget_dmerge]
      cases hu : dget user k <;> simp [Option.orElse, hu, hk]
    have hconc : (formatGo GLOBAL_DEFAULTS none
        ("python:{python_version}-slim-{debian_base}" : String).data).isSome = true := by
      decide
    have := formatGo_isSome_mono GLOBAL_DEFAULTS
      (DockerfileGenerator.mergedDefaults user) hmono
      ("python:{python_version}-slim-{debian_base}" : String).data none hconc
    simpa [compute_base_image, DEFAULT_BASE_IMAGES, dget, Ne.symm h1, Ne.symm h2,
      pyFormat] using this

/-- Witness for C10 at the unrecognized base variant `ubuntu`: the Debian
pattern is used, and the substitution on the generator's merged defaults
succeeds. -/
theorem C10_witness :
    compute_base_image "ubuntu" []
        = pyFormat "python:{python_version}-slim-{debian_base}" []
      ∧ (compute_base_image "ubuntu"
          (DockerfileGenerator.mergedDefaults [])).isSome = true :=
  C10_unknown_base_falls_back_to_debian "ubuntu" [] [] (by decide) (by decide)

/-- A target with no truthy configured template and no conventional template
file never contributes an entry to a successful generation loop result. -/
theorem genLoop_no_template_not_in_result
    (fs : String → Bool) (render : String → String → String)
    (all_targets : Dict TargetConfig) (tname : String) (tc : TargetConfig)
    (hfind : dget all_targets tname = some tc)
    (htp : truthy tc.dockerfile_template = false)
    (hconv : fs (conventionTemplatePath tname) = false) :
    ∀ (selected : List String) (res : Dict String),
      genLoop fs render all_targets selected = .ok res → dget res tname = none := by
  intro selected
  induction selected with
  | nil =>
    intro res h
    simp only [genLoop, Except.ok.injEq] at h
    subst h
    rfl
  | cons t rest ih =>
    intro res h
    simp only [genLoop] at h
    by_cases ht : t = tname
    · subst ht
      rw [hfind] at h
      simp only [resolveTemplatePath, htp, Bool.false_eq_true, if_false, hconv,
        Bool.not_false, if_true] at h
      exact ih res h
    · cases hdg : dget all_targets t with
      | none =>
        rw [hdg] at h
        exact ih res h
      | some tc' =>
        rw [hdg] at h
        cases htr : truthy (resolveTemplatePath fs tc' t) with
        | false =>
          simp only [htr, Bool.not_false, if_true] at h
          exact ih res h
        | true =>
          simp only [htr, Bool.not_true, Bool.false_eq_true, if_false] at h
          cases hfs : fs ((resolveTemplatePath fs tc' t).getD "") with
          | false => simp [hfs] at h
          | true =>
            simp only [hfs, Bool.not_true, Bool.false_eq_true, if_false] at h
            cases hrec : genLoop fs render all_targets rest with
            | error e => rw [hrec] at h; exact absurd h (by simp)
            | ok results =>
              rw [hrec] at h
              simp only [Except.ok.injEq] at h
              subst h
              simp only [dget_cons, ht, if_false]
              exact ih results hrec

/-- C2 counterexample: a single-target generation call naming a target whose
config names no template and for which no conventional template file exists
does not raise the missing-template failure; it returns silently with an
empty result mapping (`generate_all_dockerfiles` skips the target with
`continue` at line 587 no matter how it was selected). -/
theorem C2_counterexample :
    generate_all_dockerfiles (fun _ => false) (fun _ _ => "")
        ⟨[("worker", ⟨none, none, [], [], []⟩)], []⟩ (some ["worker"]) = .ok [] := rfl

/-- C2 amended: a target whose config names no truthy template and for which
no conventional template file exists is silently omitted in *both* modes: a
batch call (no target list) returns a mapping in which the target is absent,
and a single-target call naming exactly that target returns an empty mapping
without raising. -/
theorem C2_amended_silent_skip_in_both_modes
    (fs : String → Bool) (render : String → String → String) (settings : Settings)
    (tname : String) (tc : TargetConfig)
    (hfind : dget settings.targets tname = some tc)
    (htp : truthy tc.dockerfile_template = false)
    (hconv : fs (conventionTemplatePath tname) = false) :
    (∀ res, generate_all_dockerfiles fs render settings none = .ok res →
        dget res tname = none)
      ∧ generate_all_dockerfiles fs render settings (some [tname]) = .ok [] := by
  constructor
  · intro res h
    exact genLoop_no_template_not_in_result fs render settings.targets tname tc
      hfind htp hconv _ res h
  · simp [generate_all_dockerfiles, genLoop, hfind, resolveTemplatePath, htp, hconv]

/-- Witness for C2 amended: target `web` with no template anywhere, absent
from the (empty) batch result and silently skipped when requested
individually. -/
theorem C2_amended_witness :
    dget ([] : Dict String) "web" = none
      ∧ generate_all_dockerfiles (fun _ => false) (fun _ _ => "")
          ⟨[("web", ⟨none, none, [], [], []⟩)], []⟩ (some ["web"]) = .ok [] := by
  have h := C2_amended_silent_skip_in_both_modes (fun _ => false) (fun _ _ => "")
    ⟨[("web", ⟨none, none, [], [], []⟩)], []⟩ "web" ⟨none, none, [], [], []⟩
    rfl rfl rfl
  exact ⟨h.1 [] rfl, h.2⟩

/-- The comment-stripping loop computes the maximal leading run of comment
lines and the corresponding remainder. -/
theorem splitLeadingComments_eq (ls : List (List Char)) :
    splitLeadingComments ls = (ls.takeWhile lineIsComment, ls.dropWhile lineIsComment) := by
  induction ls with
  | nil => rfl
  | cons l rest ih =>
    by_cases h : lineIsComment l <;>
      simp [splitLeadingComments, List.takeWhile_cons, List.dropWhile_cons, h, ih]

/-- C3: for a snippet whose right-trimmed content does not start with a
recognized instruction keyword, the recipe-invocation primitive strips the
maximal leading run of comment lines; if the remaining content (stripped) is
non-empty the result is those comment lines followed by a `RUN` line wrapping
it, and if the remaining content is empty but comments were collected the
result is only the comment lines. -/
theorem C3_run_prefix_rule (content : List Char)
    (hrun : ("RUN ".data).isPrefixOf (pyRstrip content) = false)
    (hcopy : ("COPY ".data).isPrefixOf (pyRstrip content) = false) :
    (pyStrip (joinNL ((splitNL (pyRstrip content)).dropWhile lineIsComment)) ≠ [] →
      DockerfileGenerator.recipe_func_body content
        = (if (splitNL (pyRstrip content)).takeWhile lineIsComment = [] then []
            else joinNL ((splitNL (pyRstrip content)).takeWhile lineIsComment) ++ ['\n'])
          ++ "RUN ".data
          ++ pyStrip (joinNL ((splitNL (pyRstrip content)).dropWhile lineIsComment)))
    ∧ (pyStrip (joinNL ((splitNL (pyRstrip content)).dropWhile lineIsComment)) = [] →
       (splitNL (pyRstrip content)).takeWhile lineIsComment ≠ [] →
      DockerfileGenerator.recipe_func_body content
        = joinNL ((splitNL (pyRstrip content)).takeWhile lineIsComment)) := by
  by_cases hE : (pyRstrip content).isEmpty = true
  · have ht0 : pyRstrip content = [] := by simpa using hE
    constructor
    · intro hcmd
      rw [ht0] at hcmd
      exact absurd (by decide) hcmd
    · intro _ hcom
      rw [ht0] at hcom
      exact absurd (by decide) hcom
  · have hE' : (pyRstrip content).isEmpty = false := by
      cases h : (pyRstrip content).isEmpty
      · rfl
      · exact absurd h hE
    have hbody : DockerfileGenerator.recipe_func_body content
        = (if !(pyStrip (joinNL ((splitNL (pyRstrip content)).dropWhile lineIsComment))).isEmpty
            then
              (if !((splitNL (pyRstrip content)).takeWhile lineIsComment).isEmpty
                then joinNL ((splitNL (pyRstrip content)).takeWhile lineIsComment) ++ ['\n']
                else [])
              ++ "RUN ".data
              ++ pyStrip (joinNL ((splitNL (pyRstrip content)).dropWhile lineIsComment))
            else if !((splitNL (pyRstrip content)).takeWhile lineIsComment).isEmpty
              then joinNL ((splitNL (pyRstrip content)).takeWhile lineIsComment)
            else pyRstrip content) := by
      rw [DockerfileGenerator.recipe_func_body]
      simp only [hE', hrun, hcopy, splitLeadingComments_eq, Bool.false_eq_true, if_false,
        Bool.or_self, Bool.or_false, Bool.false_or]
    constructor
    · intro hcmd
      have hcmd' :
          (pyStrip (joinNL ((splitNL (pyRstrip content)).dropWhile lineIsComment))).isEmpty
            = false := by
        cases h : (pyStrip (joinNL ((splitNL (pyRstrip content)).dropWhile lineIsComment))).isEmpty
        · rfl
        · exact absurd (by simpa using h) hcmd
      rw [hbody]
      simp only [hcmd', Bool.not_false, if_true]
      by_cases hc : (splitNL (pyRstrip content)).takeWhile lineIsComment = [] <;>
        simp [hc]
    · intro hcmd hcom
      have hcmd' :
          (pyStrip (joinNL ((splitNL (pyRstrip content)).dropWhile lineIsComment))).isEmpty
            = true := by simpa using hcmd
      have hcom' : ((splitNL (pyRstrip content)).takeWhile lineIsComment).isEmpty = false := by
        cases h : ((splitNL (pyRstrip content)).takeWhile lineIsComment).isEmpty
        · rfl
        · exact absurd (by simpa using h) hcom
      rw [hbody]
      simp [hcmd', hcom']

/-- Witness for C3 at the spec's own example: `"# note\napt-get update"`
becomes `"# note\nRUN apt-get update"`. -/
theorem C3_witness :
    DockerfileGenerator.recipe_func_body ("# note\napt-get update".data)
      = ("# note\nRUN apt-get update".data) :=
  ((C3_run_prefix_rule ("# note\napt-get update".data) (by decide) (by decide)).1
    (by decide)).trans (by decide)

/-- C4 counterexample: a snippet that already starts with `"RUN "` is *not*
returned byte-identically: the code right-trims first (line 182), so trailing
whitespace is removed. -/
theorem C4_counterexample :
    DockerfileGenerator.recipe_func_body ("RUN apt-get update\n".data)
        = ("RUN apt-get update".data)
      ∧ ("RUN apt-get update".data) ≠ ("RUN apt-get update\n".data) := by
  constructor
  · decide
  · decide

/-- C4 amended: a snippet whose right-trimmed content starts with a
recognized instruction keyword (`"RUN "` or `"COPY "`) is returned
right-trimmed but otherwise unchanged; in particular a snippet with no
trailing whitespace is returned identically. -/
theorem C4_amended_keyword_snippet_rstripped (content : List Char)
    (h : ("RUN ".data).isPrefixOf (pyRstrip content) = true
        ∨ ("COPY ".data).isPrefixOf (pyRstrip content) = true) :
    DockerfileGenerator.recipe_func_body content = pyRstrip content := by
  have hne : (pyRstrip content).isEmpty = false := by
    cases hx : pyRstrip content with
    | nil =>
      rcases h with h | h <;> rw [hx] at h <;> exact absurd h (by decide)
    | cons c cs => rfl
  rw [DockerfileGenerator.recipe_func_body]
  rcases h with h | h <;> simp [hne, h]

/-- Witness for C4 amended: a `COPY` snippet without trailing whitespace is
returned unchanged. -/
theorem C4_amended_witness :
    DockerfileGenerator.recipe_func_body ("COPY . /app".data) = ("COPY . /app".data) :=
  (C4_amended_keyword_snippet_rstripped ("COPY . /app".data)
    (Or.inr (by decide))).trans (by decide)

theorem splitDashAux_append (b s : List Char) (h : '-' ∉ b) :
    splitDashAux (b ++ '-' :: s) = (b, some s) := by
  induction b with
  | nil => simp [splitDashAux]
  | cons c rest ih =>
    have hc : c ≠ '-' := fun hc => h (hc ▸ List.mem_cons_self c rest)
    have hr : '-' ∉ rest := fun hm => h (List.mem_cons_of_mem c hm)
    simp [splitDashAux, hc, ih hr]

/-- Splitting `base ++ "-" ++ sub` at the first dash recovers `base` and
`sub` when `base` itself contains no dash. -/
theorem splitVariant_dashed (base sub : String) (h : '-' ∉ base.data) :
    splitVariant (base ++ "-" ++ sub) = (base, some sub) := by
  have hd : (base ++ "-" ++ sub).data = base.data ++ '-' :: sub.data := by
    simp [String.data_append]
  simp [splitVariant, hd, splitDashAux_append base.data sub.data h]

theorem append_dash_ne (base sub : String) : base ++ "-" ++ sub ≠ base := by
  intro h
  have hlen := congrArg (fun s => s.data.length) h
  simp [String.data_append] at hlen

/-- C5: for a variant `base-sub` (with a non-empty sub-variant name, as the
form `base-sub` requires; an empty sub name is falsy and line 373 skips its
override) and a key set both in the base file's top-level mapping and in its
sub-variant override for `sub`, the resolved configuration holds the
sub-variant's value; when an exact-match file for the full variant also sets
the key, its value overrides both; and the result retains no `subvariants`
entry (the sub-variant override map itself being flat, per the variant-file
interface). -/
theorem C5_subvariant_and_exact_precedence
    (fs : String → Option YConfig) (base sub k : String)
    (base_config sub_over : YConfig) (subm : List (String × YVal)) (v1 v2 : YVal)
    (hnd : '-' ∉ base.data)
    (hsubne : sub ≠ "")
    (hk : k ≠ "subvariants")
    (hbase : fs base = some base_config)
    (hsubv : dget base_config "subvariants" = some (.map subm))
    (hsub : dget subm sub = some (.map sub_over))
    (_hv1 : dget base_config k = some v1)
    (hv2 : dget sub_over k = some v2)
    (hflat : dget sub_over "subvariants" = none) :
    (fs (base ++ "-" ++ sub) = none →
      optHolds (load_variant_config fs (base ++ "-" ++ sub)) (fun r =>
        dget r k = some v2 ∧ dget r "subvariants" = none))
    ∧ (∀ (exact_config : YConfig) (v3 : YVal),
        fs (base ++ "-" ++ sub) = some exact_config →
        dget exact_config k = some v3 →
        optHolds (load_variant_config fs (base ++ "-" ++ sub)) (fun r =>
          dget r k = some v3 ∧ dget r "subvariants" = none)) := by
  have hne := append_dash_ne base sub
  constructor
  · intro hexact
    have hload : load_variant_config fs (base ++ "-" ++ sub)
        = some (dmerge (removeKey base_config "subvariants") sub_over) := by
      simp [load_variant_config, splitVariant_dashed base sub hnd, hbase, hsubv,
        hsub, hsubne, hexact, hne]
    rw [hload]
    simp only [optHolds]
    constructor
    · rw [dget_dmerge, hv2]
      rfl
    · rw [dget_dmerge, hflat, dget_removeKey_self]
      rfl
  · intro exact_config v3 hexact hv3
    have hload : load_variant_config fs (base ++ "-" ++ sub)
        = some (dmerge (dmerge (removeKey base_config "subvariants") sub_over)
            (removeKey exact_config "subvariants")) := by
      simp [load_variant_config, splitVariant_dashed base sub hnd, hbase, hsubv,
        hsub, hsubne, hexact, hne]
    rw [hload]
    simp only [optHolds]
    constructor
    · rw [dget_dmerge, dget_removeKey_ne exact_config "subvariants" k hk, hv3]
      rfl
    · rw [dget_dmerge, dget_removeKey_self, dget_dmerge, hflat, dget_removeKey_self]
      rfl

/-- Witness for C5 on a concrete variants directory: `debian.yml` sets
`debian_base: bookworm` with a `trixie` sub-variant override to `trixie`;
without an exact file the resolved value is the sub-variant's, and with a
`debian-trixie.yml` exact file the exact file's value wins; no `subvariants`
key survives. -/
theorem C5_witness :
    optHolds (load_variant_config
        (fun n => if n = "debian" then
            some [("debian_base", YVal.str "bookworm"),
                  ("subvariants", YVal.map [("trixie",
                    YVal.map [("debian_base", YVal.str "trixie")])])]
          else none)
        ("debian" ++ "-" ++ "trixie"))
      (fun r => dget r "debian_base" = some (YVal.str "trixie")
        ∧ dget r "subvariants" = none)
    ∧ optHolds (load_variant_config
        (fun n => if n = "debian" then
            some [("debian_base", YVal.str "bookworm"),
                  ("subvariants", YVal.map [("trixie",
                    YVal.map [("debian_base", YVal.str "trixie")])])]
          else if n = "debian-trixie" then
            some [("debian_base", YVal.str "exact")]
          else none)
        ("debian" ++ "-" ++ "trixie"))
      (fun r => dget r "debian_base" = some (YVal.str "exact")
        ∧ dget r "subvariants" = none) := by
  constructor
  · exact (C5_subvariant_and_exact_precedence
      (fun n => if n = "debian" then
          some [("debian_base", YVal.str "bookworm"),
                ("subvariants", YVal.map [("trixie",
                  YVal.map [("debian_base", YVal.str "trixie")])])]
        else none)
      "debian" "trixie" "debian_base"
      [("debian_base", YVal.str "bookworm"),
       ("subvariants", YVal.map [("trixie",
         YVal.map [("debian_base", YVal.str "trixie")])])]
      [("debian_base", YVal.str "trixie")]
      [("trixie", YVal.map [("debian_base", YVal.str "trixie")])]
      (YVal.str "bookworm") (YVal.str "trixie")
      (by decide) (by decide) (by decide) rfl rfl rfl rfl rfl rfl).1 rfl
  · exact (C5_subvariant_and_exact_precedence
      (fun n => if n = "debian" then
          some [("debian_base", YVal.str "bookworm"),
                ("subvariants", YVal.map [("trixie",
                  YVal.map [("debian_base", YVal.str "trixie")])])]
        else if n = "debian-trixie" then
          some [("debian_base", YVal.str "exact")]
        else none)
      "debian" "trixie" "debian_base"
      [("debian_base", YVal.str "bookworm"),
       ("subvariants", YVal.map [("trixie",
         YVal.map [("debian_base", YVal.str "trixie")])])]
      [("debian_base", YVal.str "trixie")]
      [("trixie", YVal.map [("debian_base", YVal.str "trixie")])]
      (YVal.str "bookworm") (YVal.str "trixie")
      (by decide) (by decide) (by decide) rfl rfl rfl rfl rfl rfl).2
      [("debian_base", YVal.str "exact")] (YVal.str "exact") rfl rfl

end Baker
